import Mathlib

/-!
Shallow embedding of the boutique-chile hotel finder.

The embedded code is the filter-and-render engine of `src/main.js`
(class `HotelFinder`, the full-featured variant) together with the
simplified sibling variant in `src/unnamed/part_000`.  JS strings are
modelled as Lean `String`, JS arrays as `List`, the JS `Set` held in
`filters.amenities` as a `List String` (only membership and emptiness
are ever used), and JS numbers occurring in the engine (`nightlyRate`,
`maxPrice`, `rating`, `rooms`, counts) as `Nat` — every value the code
compares or formats here is a non-negative integer in the data contract.
Fallible JS evaluation (property access on `undefined`) is modelled with
`Except`.  All definitions are executable structural recursion so that
concrete runs can be checked with `decide` / `rfl`.
-/

namespace BoutiqueChile

set_option maxRecDepth 20000

/-- JS `String.prototype.toLowerCase`, restricted to the ASCII range the
engine's data uses: lower-case every character. -/
def lowerStr (s : String) : String :=
  String.mk (s.data.map Char.toLower)

/-- Character class used by JS `String.prototype.trim`. -/
def isWS (c : Char) : Bool :=
  c = ' ' || c = '\t' || c = '\n' || c = '\r'

/-- JS `String.prototype.trim`: drop whitespace from both ends. -/
def trimStr (s : String) : String :=
  String.mk (((s.data.dropWhile isWS).reverse.dropWhile isWS).reverse)

/-- JS `String.prototype.includes`: `strIncludes hay needle` is `true` iff
`needle` occurs as a contiguous substring of `hay`. -/
def strIncludes (hay needle : String) : Bool :=
  decide (needle.data <:+: hay.data)

/-- One lodging record, as consumed by both engine variants.  The full
variant keys geography on `region`, the simplified one on `macroZone`;
the union data model carries both.  `nearbyAttractions` is optional in
the data file (`hotel.nearbyAttractions` may be `undefined`). -/
structure Hotel where
  id : String
  name : String
  location : String
  region : String
  macroZone : String
  description : String
  nightlyRate : Nat
  rating : Nat
  rooms : Nat
  amenities : List String
  nearbyAttractions : Option (List String)
  image : String
deriving DecidableEq

/-- The filter configuration of the full variant
(`this.filters`, src/main.js lines 10-15). -/
structure Filters where
  search : String
  region : String
  maxPrice : Nat
  amenities : List String
deriving DecidableEq

/-- Defaults set in the constructor (src/main.js lines 10-15):
empty search and region, `maxPrice: 2500`, empty amenity set. -/
def defaultFilters : Filters :=
  { search := "", region := "", maxPrice := 2500, amenities := [] }

/-- The search corpus built in `applyFilters` (src/main.js lines 330-336):
lower-cased name, location, region, description and the entries of
`hotel.nearbyAttractions || []`, joined with `' '`. -/
def searchCorpus (h : Hotel) : String :=
  String.intercalate " "
    ([lowerStr h.name, lowerStr h.location, lowerStr h.region,
      lowerStr h.description] ++
      (h.nearbyAttractions.getD []).map lowerStr)

/-- The per-record predicate of `applyFilters` (src/main.js lines 327-363),
modelling the spec's `matches(record, config)`: the early-return chain over the
four constraint families (text search, region, price, amenities). -/
def matchesRec (h : Hotel) (fl : Filters) : Bool :=
  if fl.search != "" && !(strIncludes (searchCorpus h) fl.search) then false
  else if fl.region != "" && h.region != fl.region then false
  else if fl.maxPrice < h.nightlyRate then false
  else if 0 < fl.amenities.length then
    fl.amenities.all (fun a => h.amenities.contains a)
  else true

/-- `applyFilters` of the full variant (src/main.js lines 326-364):
`this.filteredHotels = this.hotels.filter(...)`. -/
def applyFilters (fl : Filters) (hotels : List Hotel) : List Hotel :=
  hotels.filter (fun h => matchesRec h fl)

/-- `applyFilters` of the simplified variant (src/unnamed/part_000 lines
106-111): keep a hotel iff `macroZone` is unset or equals the hotel's. -/
def simpleApplyFilters (macroZone : String) (hotels : List Hotel) : List Hotel :=
  hotels.filter (fun h => if macroZone != "" then h.macroZone == macroZone else true)

/-- A minimal record used by the concrete test vectors: only the fields a
given constraint family looks at are varied by the callers. -/
def rateHotel (r : Nat) : Hotel :=
  { id := "h" ++ toString r, name := "Hotel", location := "Loc",
    region := "Zona", macroZone := "Zona", description := "Desc",
    nightlyRate := r, rating := 4, rooms := 10, amenities := [],
    nearbyAttractions := none, image := "img.jpg" }

/-- A configuration whose only active constraint is `maxPrice = 300`. -/
def priceOnly300 : Filters :=
  { search := "", region := "", maxPrice := 300, amenities := [] }

/-- A configuration whose only active constraint is a required amenity set. -/
def amenFl (ams : List String) : Filters :=
  { search := "", region := "", maxPrice := 2500, amenities := ams }

/-- The record with amenity set `{spa, wifi}` from the spec's amenity
AND-semantics example. -/
def spaWifiHotel : Hotel :=
  { rateHotel 100 with amenities := ["spa", "wifi"] }

/-- C1: `applyFilters` returns exactly the records of the input set that
satisfy the `matches(record, config)` predicate, in the same relative order (the result
is a sublist, and membership is characterized by `matchesRec`); and on three
records with nightly rates 100, 300, 500 under `maxPrice = 300` the result
is exactly the first two, order preserved — the bound is inclusive. -/
theorem applyFilters_exact :
    (∀ (fl : Filters) (hotels : List Hotel),
        (applyFilters fl hotels).Sublist hotels ∧
        ∀ h : Hotel, h ∈ applyFilters fl hotels ↔ h ∈ hotels ∧ matchesRec h fl = true) ∧
    applyFilters priceOnly300 [rateHotel 100, rateHotel 300, rateHotel 500]
      = [rateHotel 100, rateHotel 300] := by
  refine ⟨fun fl hotels => ⟨List.filter_sublist _, fun h => ?_⟩, by decide⟩
  exact List.mem_filter

/-- C2: `matchesRec` decomposes as the logical AND of the four constraint
families, with the amenities family holding iff the record's amenity set
is a superset of the required set; and the record with amenities
`{spa, wifi}` matches the required sets `{spa}` and `{spa, wifi}` but not
`{spa, pool}`. -/
theorem matches_and_semantics :
    (∀ (h : Hotel) (fl : Filters),
        matchesRec h fl = true ↔
          ((fl.search = "" ∨ strIncludes (searchCorpus h) fl.search = true) ∧
           (fl.region = "" ∨ h.region = fl.region) ∧
           h.nightlyRate ≤ fl.maxPrice ∧
           (∀ a ∈ fl.amenities, a ∈ h.amenities))) ∧
    (matchesRec spaWifiHotel (amenFl ["spa"]) = true ∧
     matchesRec spaWifiHotel (amenFl ["spa", "wifi"]) = true ∧
     matchesRec spaWifiHotel (amenFl ["spa", "pool"]) = false) := by
  refine ⟨fun h fl => ?_, by decide, by decide, by decide⟩
  unfold matchesRec
  split_ifs with h1 h2 h3 h4
  · simp only [Bool.and_eq_true, bne_iff_ne, ne_eq, Bool.not_eq_true'] at h1
    simp only [false_iff, not_and]
    intro hs
    rcases hs with hs | hs
    · exact absurd hs h1.1
    · exact absurd h1.2 (by simp [hs])
  · simp only [Bool.and_eq_true, bne_iff_ne, ne_eq] at h2
    simp only [false_iff, not_and]
    intro _ hr
    rcases hr with hr | hr
    · exact absurd hr h2.1
    · exact absurd h2.2 (by simp [hr])
  · simp only [false_iff, not_and]
    intro _ _ hp _
    omega
  · simp only [Bool.and_eq_true, bne_iff_ne, ne_eq, Bool.not_eq_true',
      not_and, not_not] at h1 h2
    constructor
    · intro hall
      refine ⟨?_, ?_, by omega, ?_⟩
      · by_cases hs : fl.search = ""
        · exact Or.inl hs
        · exact Or.inr (by simpa using h1 hs)
      · by_cases hr : fl.region = ""
        · exact Or.inl hr
        · exact Or.inr (by simpa using h2 hr)
      · intro a ha
        have := (List.all_eq_true.mp hall) a ha
        simpa [List.contains, List.elem_iff] using this
    · rintro ⟨-, -, -, hsup⟩
      refine List.all_eq_true.mpr fun a ha => ?_
      simpa [List.contains, List.elem_iff] using hsup a ha
  · simp only [Bool.and_eq_true, bne_iff_ne, ne_eq, Bool.not_eq_true',
      not_and, not_not] at h1 h2
    have hempty : fl.amenities = [] := by simpa using h4
    constructor
    · intro _
      refine ⟨?_, ?_, by omega, by simp [hempty]⟩
      · by_cases hs : fl.search = ""
        · exact Or.inl hs
        · exact Or.inr (by simpa using h1 hs)
      · by_cases hr : fl.region = ""
        · exact Or.inl hr
        · exact Or.inr (by simpa using h2 hr)
    · intro _
      rfl

/-- The value committed to the search channel by the input listener
(src/main.js line 116): `e.target.value.toLowerCase().trim()`. -/
def searchChannelValue (raw : String) : String :=
  trimStr (lowerStr raw)

/-- The text-search constraint block of `applyFilters` (src/main.js lines
329-341) in isolation: with a non-empty stored search string the record
passes iff the corpus includes it; with an empty one the block is skipped. -/
def searchConstraint (search : String) (h : Hotel) : Bool :=
  if search != "" && !(strIncludes (searchCorpus h) search) then false else true

/-- Stated from the claim's words, for comparison with the code: the plain
separator-free concatenation of the lower-cased name, location, region,
description and nearbyAttractions entries. -/
def specConcatCorpus (h : Hotel) : String :=
  lowerStr h.name ++ lowerStr h.location ++ lowerStr h.region ++
    lowerStr h.description ++ String.join ((h.nearbyAttractions.getD []).map lowerStr)

/-- A record on which the space-joined corpus and the separator-free
concatenation disagree for a search string crossing a field boundary. -/
def crossFieldHotel : Hotel :=
  { rateHotel 100 with name := "ab", location := "cd", region := "", description := "" }

/-- A record whose description contains "Andes" while name and location
do not. -/
def andesHotel : Hotel :=
  { rateHotel 120 with
      name := "Casa Cumbre"
      location := "Santiago Centro"
      region := "Metropolitana"
      description := "Vista a los Andes desde la terraza" }

/-- C3 counterexample: the code joins the record fields with a space
(`join(' ')`, src/main.js line 336), so for the record with name "ab" and
location "cd" the search string "bc" is a substring of the separator-free
concatenation "abcd" that the claim describes, yet the text-search
constraint rejects the record — the claimed iff fails at this input. -/
theorem search_concat_counterexample :
    searchConstraint "bc" crossFieldHotel = false ∧
    strIncludes (specConcatCorpus crossFieldHotel) "bc" = true := by
  decide

/-- C3 (amended): for every record and non-empty stored search string, the
text-search constraint passes iff the string is a substring of the
space-separated concatenation (fields joined with `' '`) of the record's
lower-cased name, location, region, description and nearbyAttractions
entries; and the stored value of the raw input "Andes" matches a record
whose description contains "Andes" while its name and location do not. -/
theorem searchConstraint_substring :
    (∀ (h : Hotel) (s : String), s ≠ "" →
        (searchConstraint s h = true ↔ s.data <:+: (searchCorpus h).data)) ∧
    (searchConstraint (searchChannelValue "Andes") andesHotel = true ∧
     strIncludes (lowerStr andesHotel.name) "andes" = false ∧
     strIncludes (lowerStr andesHotel.location) "andes" = false) := by
  refine ⟨fun h s hs => ?_, by decide, by decide, by decide⟩
  have hbne : (s != "") = true := by simpa using hs
  simp [searchConstraint, strIncludes, hbne]

/-- Witness for `searchConstraint_substring`: instantiating the record and
the non-empty search string "andes" yields the concrete substring fact. -/
theorem searchConstraint_substring_witness :
    "andes".data <:+: (searchCorpus andesHotel).data :=
  (searchConstraint_substring.1 andesHotel "andes" (by decide)).mp (by decide)

/-- Result-count header of the full variant (src/main.js lines 377-381). -/
def countText (count : Nat) : String :=
  if count = 0 then "No se encontraron hoteles"
  else if count = 1 then "1 hotel encontrado"
  else toString count ++ " hoteles encontrados"

/-- Empty-state visibility of the full variant (src/main.js lines 385-391):
`showEmptyState true` exactly when the count is zero. -/
def emptyStateShown (count : Nat) : Bool :=
  count == 0

/-- Result-count header of the simplified variant (src/unnamed/part_000
line 117): the count, a space, then the singular or plural noun phrase. -/
def simpleCountText (count : Nat) : String :=
  toString count ++ " " ++ (if count = 1 then "hotel encontrado" else "hoteles encontrados")

/-- Empty-state visibility of the simplified variant (src/unnamed/part_000
lines 120-125): `aria-hidden` is set to `"false"` exactly when the count is
zero. -/
def simpleEmptyStateShown (count : Nat) : Bool :=
  count == 0

/-- The plural phrasing with the literal count, as both variants render it. -/
def pluralPhrase (n : Nat) : String :=
  toString n ++ " hoteles encontrados"

/-- The singular phrasing, as both variants render it. -/
def singularPhrase : String :=
  "1 hotel encontrado"

/-- The claim's pluralization contract for one engine variant: at count 0 a
no-results message — at minimum distinct from the plural phrasing with
literal count 0 and from the singular phrasing — with the empty state
shown; at count 1 the singular phrasing; at count 2 or more the plural
phrasing with the literal count. -/
def pluralizationOk (msg : Nat → String) (emptyShown : Nat → Bool) : Prop :=
  (msg 0 ≠ pluralPhrase 0 ∧ msg 0 ≠ singularPhrase ∧ emptyShown 0 = true) ∧
  msg 1 = singularPhrase ∧
  ∀ n, 2 ≤ n → msg n = pluralPhrase n

/-- C4 counterexample: the claim asserts the contract for both variants,
but the simplified variant has no distinct no-results message — at count 0
it renders exactly the plural phrasing with literal count 0,
"0 hoteles encontrados". -/
theorem simple_zero_message_not_distinct :
    ¬ pluralizationOk simpleCountText simpleEmptyStateShown := by
  intro hcl
  exact hcl.1.1 (by decide)

/-- C4 (amended): the full variant satisfies the pluralization contract in
full; the simplified variant has the same singular/plural boundary
(singular exactly at 1, plural phrasing with the literal count at 2 or
more) but renders the plural phrasing with literal 0 as its count-zero
message instead of a distinct no-results message; in both variants the
empty-state indicator is shown exactly when the count is zero. -/
theorem pluralization_both_variants :
    pluralizationOk countText emptyStateShown ∧
    (simpleCountText 0 = pluralPhrase 0 ∧
     simpleCountText 1 = singularPhrase ∧
     ∀ n, 2 ≤ n → simpleCountText n = pluralPhrase n) ∧
    (∀ n, (emptyStateShown n = true ↔ n = 0) ∧
          (simpleEmptyStateShown n = true ↔ n = 0)) := by
  refine ⟨⟨⟨by decide, by decide, by decide⟩, by decide, fun n hn => ?_⟩,
          ⟨by decide, by decide, fun n hn => ?_⟩,
          fun n => ⟨by simp [emptyStateShown], by simp [simpleEmptyStateShown]⟩⟩
  · unfold countText pluralPhrase
    rw [if_neg (by omega), if_neg (by omega)]
  · unfold simpleCountText pluralPhrase
    rw [if_neg (by omega), String.append_assoc]
    exact congrArg (toString n ++ ·) (by decide)

/-- Witness for `pluralization_both_variants` at count 7: both variants
render the plural phrasing with the literal count. -/
theorem pluralization_both_variants_witness :
    countText 7 = pluralPhrase 7 ∧ simpleCountText 7 = pluralPhrase 7 :=
  ⟨pluralization_both_variants.1.2.2 7 (by omega),
   pluralization_both_variants.2.1.2.2 7 (by omega)⟩

/-- A record as the JSON loader actually delivers it: `amenities` and
`nearbyAttractions` may be absent (`undefined`), every other field the
predicate touches present.  Mirrors the data-model reading of the claim. -/
structure RawHotel where
  name : String
  location : String
  region : String
  description : String
  nightlyRate : Nat
  amenities : Option (List String)
  nearbyAttractions : Option (List String)
deriving DecidableEq

/-- The search corpus of `applyFilters` over a raw record: the code guards
`nearbyAttractions` with `|| []` (src/main.js line 335), so absence is
tolerated there. -/
def rawSearchCorpus (h : RawHotel) : String :=
  String.intercalate " "
    ([lowerStr h.name, lowerStr h.location, lowerStr h.region,
      lowerStr h.description] ++
      (h.nearbyAttractions.getD []).map lowerStr)

/-- The `applyFilters` predicate evaluated over a raw record with JS
semantics: the amenities branch reads `hotel.amenities.includes(...)`
(src/main.js line 356) with no guard, so when the branch is reached and
`amenities` is absent the evaluation throws a `TypeError`, modelled as
`Except.error`. -/
def matchesRaw (h : RawHotel) (fl : Filters) : Except String Bool :=
  if fl.search != "" && !(strIncludes (rawSearchCorpus h) fl.search) then .ok false
  else if fl.region != "" && h.region != fl.region then .ok false
  else if fl.maxPrice < h.nightlyRate then .ok false
  else if 0 < fl.amenities.length then
    match h.amenities with
    | some ams => .ok (fl.amenities.all (fun a => ams.contains a))
    | none => .error "TypeError"
  else .ok true

/-- A benign raw record whose optional fields are both absent. -/
def bareRawHotel : RawHotel :=
  { name := "Hotel", location := "Loc", region := "Zona", description := "Desc",
    nightlyRate := 100, amenities := none, nearbyAttractions := none }

/-- C5 counterexample: with the required amenity set `{spa}` active and a
record whose `amenities` field is absent, evaluation reaches the unguarded
`hotel.amenities.includes(...)` and throws instead of returning a boolean —
absence of this optional field is not treated as empty and evaluation is
not total. -/
theorem matchesRaw_throws_counterexample :
    matchesRaw bareRawHotel (amenFl ["spa"]) = Except.error "TypeError" ∧
    ¬ ∃ b, matchesRaw bareRawHotel (amenFl ["spa"]) = Except.ok b := by
  refine ⟨rfl, ?_⟩
  rintro ⟨b, hb⟩
  rw [show matchesRaw bareRawHotel (amenFl ["spa"]) = Except.error "TypeError" from rfl] at hb
  cases hb

/-- C5 (amended): evaluation of the predicate is total — returning a
boolean, never throwing — whenever the record's `amenities` field is
present, and also for every record whenever the required amenity set is
empty; an absent `nearbyAttractions` is treated exactly as the empty
sequence and is never a match failure.  But a record with absent
`amenities` together with a non-empty required amenity set makes the
evaluation throw, as the counterexample shows. -/
theorem matchesRaw_total_when_amenities_present :
    (∀ (h : RawHotel) (fl : Filters), h.amenities.isSome = true →
        ∃ b, matchesRaw h fl = Except.ok b) ∧
    (∀ (h : RawHotel) (fl : Filters), fl.amenities = [] →
        ∃ b, matchesRaw h fl = Except.ok b) ∧
    (∀ (h : RawHotel) (fl : Filters),
        matchesRaw { h with nearbyAttractions := none } fl
          = matchesRaw { h with nearbyAttractions := some [] } fl) := by
  refine ⟨fun h fl hsome => ?_, fun h fl hempty => ?_, fun h fl => rfl⟩
  · obtain ⟨ams, ham⟩ := Option.isSome_iff_exists.mp hsome
    unfold matchesRaw
    rw [ham]
    split_ifs <;> exact ⟨_, rfl⟩
  · unfold matchesRaw
    rw [hempty]
    split_ifs with h1 h2 h3 h4
    · exact ⟨_, rfl⟩
    · exact ⟨_, rfl⟩
    · exact ⟨_, rfl⟩
    · simp at h4
    · exact ⟨_, rfl⟩

/-- Witness for `matchesRaw_total_when_amenities_present`: a record with a
present amenity set evaluates to a boolean under an active required set,
and a record with absent `nearbyAttractions` evaluates as if it were
empty. -/
theorem matchesRaw_total_witness :
    (∃ b, matchesRaw { bareRawHotel with amenities := some ["spa", "wifi"] }
            (amenFl ["spa"]) = Except.ok b) ∧
    matchesRaw bareRawHotel defaultFilters
      = matchesRaw { bareRawHotel with nearbyAttractions := some [] } defaultFilters :=
  ⟨matchesRaw_total_when_amenities_present.1
      { bareRawHotel with amenities := some ["spa", "wifi"] } (amenFl ["spa"]) rfl,
   matchesRaw_total_when_amenities_present.2.2 bareRawHotel defaultFilters⟩

/-- Quiescence window of the free-text search channel
(src/main.js line 118). -/
def searchDebounceDelay : Nat := 300

/-- Quiescence window of the price-range channel (src/main.js line 135). -/
def filterDebounceDelay : Nat := 150

/-- Timed semantics of one debounced channel (`debounce`, src/main.js lines
177-181): the channel owns a single timer slot; an input event at time `t`
carrying value `v` does `clearTimeout` on the slot and re-arms it to fire
at `t + delay` (so at most one recomputation is ever pending, by
construction of the single `Option` slot).  A pending timer whose fire
time has been reached before the next event fires first; after the last
event the pending timer fires.  The returned list is the sequence of
recomputations that actually run, each with its fire time and the value it
observes.  Events are given in time order. -/
def debounceRun (delay : Nat) : List (Nat × α) → Option (Nat × α) → List (Nat × α)
  | [], none => []
  | [], some p => [p]
  | (t, v) :: rest, none => debounceRun delay rest (some (t + delay, v))
  | (t, v) :: rest, some (ft, pv) =>
    if ft ≤ t then (ft, pv) :: debounceRun delay rest (some (t + delay, v))
    else debounceRun delay rest (some (t + delay, v))

/-- If every later event arrives before the timer armed by its predecessor
fires, the pending timer is only ever replaced, and the single
recomputation that runs is the last event's. -/
theorem debounceRun_pending (delay : Nat) :
    ∀ (rest : List (Nat × α)) (e : Nat × α),
      List.Chain (fun a b => a.1 ≤ b.1 ∧ b.1 < a.1 + delay) e rest →
      debounceRun delay rest (some (e.1 + delay, e.2))
        = [((rest.getLastD e).1 + delay, (rest.getLastD e).2)]
  | [], e, _ => by simp [debounceRun]
  | (t, v) :: rest, e, hch => by
    rw [List.chain_cons] at hch
    obtain ⟨⟨hle, hlt⟩, hch'⟩ := hch
    have hnf : ¬ (e.1 + delay ≤ t) := by omega
    rw [show debounceRun delay ((t, v) :: rest) (some (e.1 + delay, e.2))
          = debounceRun delay rest (some (t + delay, v)) by
        simp [debounceRun, hnf]]
    rw [List.getLastD_cons]
    exact debounceRun_pending delay rest (t, v) hch'

/-- C7: for any nonempty sequence of input events on a debounced channel in
which each event falls inside the quiescence window opened by its
predecessor, exactly one recomputation runs, at the last event's time plus
the channel delay, and it observes only the last event's value.  At most
one recomputation is pending at any time by the shape of the model: the
channel state is a single optional timer that each event replaces. -/
theorem debounce_coalesces (delay : Nat) (e : Nat × α) (rest : List (Nat × α))
    (hrapid : List.Chain (fun a b => a.1 ≤ b.1 ∧ b.1 < a.1 + delay) e rest) :
    debounceRun delay (e :: rest) none
      = [(((e :: rest).getLastD e).1 + delay, ((e :: rest).getLastD e).2)] := by
  obtain ⟨t, v⟩ := e
  rw [show debounceRun delay ((t, v) :: rest) none
        = debounceRun delay rest (some (t + delay, v)) from rfl]
  rw [List.getLastD_cons]
  exact debounceRun_pending delay rest (t, v) hrapid

/-- Witness for `debounce_coalesces`: three keystrokes at times 0, 100, 200
on the 300 ms search channel coalesce into one recomputation at time 500
observing only the last value. -/
theorem debounce_coalesces_witness :
    debounceRun searchDebounceDelay [(0, "a"), (100, "an"), (200, "and")] none
      = [(500, "and")] :=
  debounce_coalesces searchDebounceDelay (0, "a") [(100, "an"), (200, "and")]
    (List.Chain.cons ⟨by decide, by decide⟩ (List.Chain.cons ⟨by decide, by decide⟩ List.Chain.nil))

/-- The per-placeholder state of the lazy image loader: whether the
intersection observer is still watching it (`observe`/`unobserve`,
src/main.js lines 73-79 and 474) and how many times the real source has
been fetched (`loadImage`, src/main.js lines 499-513, triggered from the
observer callback). -/
structure LazyImage where
  observed : Bool
  fetchCount : Nat
deriving DecidableEq

/-- One intersection notification for a placeholder (src/main.js lines
74-80): while observed, an intersecting notification fetches the real
source and unobserves the placeholder; a non-intersecting one does
nothing; after `unobserve` the callback no longer receives the target. -/
def lazyStep (s : LazyImage) (isIntersecting : Bool) : LazyImage :=
  if s.observed then
    if isIntersecting then { observed := false, fetchCount := s.fetchCount + 1 }
    else s
  else s

/-- A placeholder's lifecycle over a sequence of intersection
notifications, starting observed with no fetch (`imageObserver.observe`,
src/main.js line 474). -/
def lazyRun (events : List Bool) : LazyImage :=
  events.foldl lazyStep { observed := true, fetchCount := 0 }

/-- Once unobserved, a placeholder's state never changes again. -/
theorem lazyRun_absorbed (events : List Bool) (n : Nat) :
    events.foldl lazyStep { observed := false, fetchCount := n }
      = { observed := false, fetchCount := n } := by
  induction events with
  | nil => rfl
  | cons b evs ih => simpa [lazyStep] using ih

/-- C8: over any sequence of intersection notifications, the real source is
fetched exactly once if the placeholder ever intersects the pre-load
margin and never otherwise — in particular never while every notification
so far is non-intersecting, and at most once no matter how often the
placeholder toggles across the margin — and the watcher is deregistered
exactly when the fetch has happened. -/
theorem lazy_image_fetches_once (events : List Bool) :
    (lazyRun events).fetchCount = (if events.contains true then 1 else 0) ∧
    (lazyRun events).observed = !(events.contains true) := by
  unfold lazyRun
  induction events with
  | nil => exact ⟨rfl, rfl⟩
  | cons b evs ih =>
    cases b with
    | true =>
      simp only [List.foldl_cons, List.contains_cons]
      rw [show lazyStep { observed := true, fetchCount := 0 } true
            = { observed := false, fetchCount := 1 } from rfl]
      rw [lazyRun_absorbed]
      exact ⟨by simp, by simp⟩
    | false =>
      simpa [lazyStep] using ih

/-- C9: on records whose `macroZone` and `region` denote the same attribute
(as the spec's unified data model has it) and whose rates all lie within
the price bound, the simplified variant's filter with zone `z` returns
exactly the list the full variant's `applyFilters` returns under the
configuration with region `z`, empty search text, empty required amenity
set and a `maxPrice` bounding every rate; and the empty zone yields the
full record set in both variants. -/
theorem simple_refines_full (R : List Hotel) (z : String) (M : Nat)
    (hzone : ∀ h ∈ R, h.macroZone = h.region)
    (hM : ∀ h ∈ R, h.nightlyRate ≤ M) :
    simpleApplyFilters z R
      = applyFilters { search := "", region := z, maxPrice := M, amenities := [] } R ∧
    simpleApplyFilters "" R = R ∧
    applyFilters { search := "", region := "", maxPrice := M, amenities := [] } R = R := by
  refine ⟨?_, ?_, ?_⟩
  · unfold simpleApplyFilters applyFilters
    apply List.filter_congr
    intro h hm
    have hz := hzone h hm
    have hMh := Nat.not_lt.mpr (hM h hm)
    by_cases hzz : z = ""
    · subst hzz
      simp [matchesRec, hMh]
    · by_cases hr : h.region = z
      · simp [matchesRec, hz, hr, hzz, hMh]
      · simp [matchesRec, hz, hr, hzz]
  · exact List.filter_eq_self.mpr fun a _ => rfl
  · exact List.filter_eq_self.mpr fun h hm => by
      simp [matchesRec, Nat.not_lt.mpr (hM h hm)]

/-- A record in zone Norte, rate 100, with `macroZone = region`. -/
def norteHotel : Hotel :=
  { rateHotel 100 with region := "Norte", macroZone := "Norte" }

/-- A record in zone Sur, rate 200, with `macroZone = region`. -/
def surHotel : Hotel :=
  { rateHotel 200 with region := "Sur", macroZone := "Sur" }

/-- Witness for `simple_refines_full` on a concrete two-record set and
zone "Norte" under the default price bound. -/
theorem simple_refines_full_witness :
    simpleApplyFilters "Norte" [norteHotel, surHotel]
      = applyFilters { search := "", region := "Norte", maxPrice := 2500, amenities := [] }
          [norteHotel, surHotel] :=
  (simple_refines_full [norteHotel, surHotel] "Norte" 2500 (by decide) (by decide)).1

/-- The engine state the claims about initialization need: the loaded set,
the derived filtered subset, and the filter configuration
(src/main.js lines 7-15). -/
structure FinderState where
  hotels : List Hotel
  filteredHotels : List Hotel
  filters : Filters
deriving DecidableEq

/-- State after a successful `loadHotels` (src/main.js lines 91-107):
`this.hotels` is the parsed data and `this.filteredHotels` a copy of it;
the filters still hold the constructor defaults.  In `init`
(src/main.js lines 34-48) no `applyFilters` runs between `loadHotels` and
the first `renderHotels`. -/
def loadHotelsState (data : List Hotel) : FinderState :=
  { hotels := data, filteredHotels := data, filters := defaultFilters }

/-- One recomputation (`applyFilters`, src/main.js lines 326-367): replace
the filtered subset with the scan of the full set under the current
configuration. -/
def applyFiltersState (s : FinderState) : FinderState :=
  { s with filteredHotels := applyFilters s.filters s.hotels }

/-- C10: immediately after a successful load the filtered subset is the
whole loaded set — the default configuration has not been applied to it —
so a record whose rate exceeds the default `maxPrice` of 2500 is in the
initially rendered subset and is dropped by the first recomputation. -/
theorem initial_render_unfiltered :
    (∀ data : List Hotel, (loadHotelsState data).filteredHotels = data) ∧
    (∀ (data : List Hotel) (h : Hotel), h ∈ data → 2500 < h.nightlyRate →
        h ∈ (loadHotelsState data).filteredHotels ∧
        h ∉ (applyFiltersState (loadHotelsState data)).filteredHotels) := by
  refine ⟨fun data => rfl, fun data h hmem hrate => ⟨hmem, fun hcontra => ?_⟩⟩
  have hmf := (List.mem_filter.mp hcontra).2
  simp [matchesRec, loadHotelsState, defaultFilters] at hmf
  omega

/-- A record priced above the default 2500 bound. -/
def expensiveHotel : Hotel :=
  { rateHotel 3000 with name := "Refugio Austral" }

/-- Witness for `initial_render_unfiltered`: the 3000-rate record is in the
initial filtered subset and not in the recomputed one. -/
theorem initial_render_unfiltered_witness :
    expensiveHotel ∈ (loadHotelsState [expensiveHotel]).filteredHotels ∧
    expensiveHotel ∉ (applyFiltersState (loadHotelsState [expensiveHotel])).filteredHotels :=
  initial_render_unfiltered.2 [expensiveHotel] expensiveHotel (by simp) (by decide)

/-- One character of `escapeHtml` (src/main.js lines 528-532): assigning
`div.textContent` and reading back `div.innerHTML` escapes the markup
metacharacters of text serialization — `&`, `<`, `>` and the non-breaking
space — and leaves every other character unchanged.  Note this method does
NOT escape quotes. -/
def escChar (c : Char) : String :=
  if c = '&' then "&amp;"
  else if c = '<' then "&lt;"
  else if c = '>' then "&gt;"
  else if c = Char.ofNat 160 then "&nbsp;"
  else String.mk [c]

/-- JS `Array.prototype.join('')`: plain concatenation of the pieces. -/
def strConcat : List String → String
  | [] => ""
  | s :: rest => s ++ strConcat rest

/-- `escapeHtml` (src/main.js lines 528-532). -/
def escapeHtml (text : String) : String :=
  strConcat (text.data.map escChar)

/-- The translation table of `formatAmenityName`
(src/main.js lines 286-315). -/
def amenityTranslations : List (String × String) :=
  [("spa", "Spa"), ("restaurant", "Restaurante"), ("wifi", "WiFi"),
   ("pool", "Piscina"), ("fitness", "Gimnasio"), ("concierge", "Concierge"),
   ("room-service", "Servicio a la habitación"), ("excursions", "Excursiones"),
   ("hiking", "Senderismo"), ("wildlife-watching", "Observación de fauna"),
   ("eco-tours", "Ecoturismo"), ("hot-springs", "Termas"),
   ("wine-tasting", "Cata de vinos"), ("art-gallery", "Galería de arte"),
   ("vineyard-tours", "Tours de viñedos"), ("private-guide", "Guía privado"),
   ("4wd-vehicle", "Vehículo 4x4"), ("observatory", "Observatorio"),
   ("astronomy-tours", "Tours astronómicos"), ("library", "Biblioteca"),
   ("uma-bar", "Bar Uma"), ("horseback-riding", "Cabalgatas"),
   ("kayaking", "Kayak"), ("bird-watching", "Observación de aves"),
   ("local-culture", "Cultura local"), ("boat-tours", "Tours en bote"),
   ("lake-activities", "Actividades lacustres"), ("volcano-views", "Vistas a volcanes")]

/-- JS `String.prototype.split('-')` on the character list. -/
def splitDash : List Char → List (List Char)
  | [] => [[]]
  | c :: rest =>
    if c = '-' then [] :: splitDash rest
    else
      match splitDash rest with
      | [] => [[c]]
      | g :: gs => (c :: g) :: gs

/-- `word.charAt(0).toUpperCase() + word.slice(1)`. -/
def capWord : List Char → List Char
  | [] => []
  | c :: cs => c.toUpper :: cs

/-- `formatAmenityName` (src/main.js lines 285-321): table lookup, falling
back to capitalizing each dash-separated word and joining with spaces. -/
def formatAmenityName (amenity : String) : String :=
  match amenityTranslations.lookup amenity with
  | some t => t
  | none => String.intercalate " " ((splitDash amenity.data).map (fun w => String.mk (capWord w)))

/-- Digit grouping of `Number.prototype.toLocaleString` (comma thousands
separators, as the source itself renders 2500 as "$2,500" in
`resetFilters`), working on the reversed digit list. -/
def groupRev : List Char → List Char
  | a :: b :: c :: d :: rest => a :: b :: c :: ',' :: groupRev (d :: rest)
  | l => l

/-- `n.toLocaleString()` for the natural numbers the engine formats. -/
def toLocaleStr (n : Nat) : String :=
  String.mk ((groupRev (toString n).data.reverse).reverse)

/-- The star string of `createHotelCard` (src/main.js line 420). -/
def starsOf (rating : Nat) : String :=
  String.mk (List.replicate rating '★') ++ String.mk (List.replicate (5 - rating) '☆')

/-- The rating text of `createHotelCard` (src/main.js line 421). -/
def ratingTextOf (rating : Nat) : String :=
  toString rating ++ " de 5 estrellas"

/-- The amenity-tag list of the card (src/main.js lines 446-448): the
first five amenities, each formatted, escaped and wrapped in a span. -/
def amenityTags (h : Hotel) : String :=
  strConcat ((h.amenities.take 5).map (fun amenity =>
    "<span class=\"amenity-tag\" role=\"listitem\">" ++ escapeHtml (formatAmenityName amenity) ++ "</span>"))

/-- The "+N más" overflow tag (src/main.js line 449). -/
def amenityOverflow (h : Hotel) : String :=
  if 5 < h.amenities.length then
    "<span class=\"amenity-tag\">+" ++ toString (h.amenities.length - 5) ++ " más</span>"
  else ""

/-- The nearby-attractions block (src/main.js lines 451-458), present iff
`hotel.nearbyAttractions` is defined, each entry escaped inside an li. -/
def attractionsBlock (h : Hotel) : String :=
  match h.nearbyAttractions with
  | some attrs =>
    "\n                <div class=\"hotel-attractions\">\n                    <h4>Lugares fantásticos cerca:</h4>\n                    <ul>\n                        "
      ++ strConcat (attrs.map (fun attr => "<li>" ++ escapeHtml attr ++ "</li>"))
      ++ "\n                    </ul>\n                </div>\n                "
  | none => ""

/-- The full `card.innerHTML` template of `createHotelCard` (src/main.js
lines 423-469), with each interpolation exactly as the source has it:
`hotel.image`, `hotel.id` and the alt text `hotel.name - hotel.location`
are interpolated raw, while name, location, description, amenity tags and
attractions go through `escapeHtml`. -/
def cardHtml (h : Hotel) : String :=
  "\n            <div class=\"hotel-image\">\n                <img \n                    src=\"data:image/svg+xml,%3Csvg xmlns=\x27http://www.w3.org/2000/svg\x27 width=\x27800\x27 height=\x27600\x27%3E%3Crect width=\x27100%25\x27 height=\x27100%25\x27 fill=\x27%23f0f2f5\x27/%3E%3C/svg%3E\"\n                    data-src=\"" ++
  h.image ++
  "\" \n                    alt=\"" ++
  h.name ++ " - " ++ h.location ++
  "\"\n                    loading=\"lazy\"\n                    width=\"800\"\n                    height=\"600\"\n                >\n                <div class=\"hotel-rating\" aria-label=\"" ++
  ratingTextOf h.rating ++
  "\">\n                    <span aria-hidden=\"true\">" ++
  starsOf h.rating ++
  "</span>\n                    <span class=\"visually-hidden\">" ++
  ratingTextOf h.rating ++
  "</span>\n                </div>\n            </div>\n            <div class=\"hotel-content\">\n                <h3 id=\"hotel-name-" ++
  h.id ++
  "\" class=\"hotel-name\">" ++
  escapeHtml h.name ++
  "</h3>\n                <p class=\"hotel-location\">\n                    <span aria-label=\"Ubicación\">📍</span>\n                    " ++
  escapeHtml h.location ++
  "\n                </p>\n                <p class=\"hotel-description\">" ++
  escapeHtml h.description ++
  "</p>\n                <div class=\"hotel-amenities\" role=\"list\" aria-label=\"Amenidades del hotel\">\n                    " ++
  amenityTags h ++
  "\n                    " ++
  amenityOverflow h ++
  "\n                </div>\n                " ++
  attractionsBlock h ++
  "\n                <div class=\"hotel-footer\">\n                    <div class=\"hotel-price\">\n                        $" ++
  toLocaleStr h.nightlyRate ++
  "\n                        <span class=\"hotel-price-label\">por noche</span>\n                    </div>\n                    <div class=\"hotel-rooms\" aria-label=\"Número de habitaciones\">\n                        " ++
  toString h.rooms ++
  " habitaciones\n                    </div>\n                </div>\n            </div>\n        "

/-- Stated from the claim's words, for comparison with the code: the same
card template with EVERY data-supplied text field of the claim's list —
name, location, description, amenity tags, nearby attractions, image URL
and id — passed through `escapeHtml` before interpolation, i.e. also the
image URL, the id and the alt text. -/
def cardHtmlAllEsc (h : Hotel) : String :=
  "\n            <div class=\"hotel-image\">\n                <img \n                    src=\"data:image/svg+xml,%3Csvg xmlns=\x27http://www.w3.org/2000/svg\x27 width=\x27800\x27 height=\x27600\x27%3E%3Crect width=\x27100%25\x27 height=\x27100%25\x27 fill=\x27%23f0f2f5\x27/%3E%3C/svg%3E\"\n                    data-src=\"" ++
  escapeHtml h.image ++
  "\" \n                    alt=\"" ++
  escapeHtml h.name ++ " - " ++ escapeHtml h.location ++
  "\"\n                    loading=\"lazy\"\n                    width=\"800\"\n                    height=\"600\"\n                >\n                <div class=\"hotel-rating\" aria-label=\"" ++
  ratingTextOf h.rating ++
  "\">\n                    <span aria-hidden=\"true\">" ++
  starsOf h.rating ++
  "</span>\n                    <span class=\"visually-hidden\">" ++
  ratingTextOf h.rating ++
  "</span>\n                </div>\n            </div>\n            <div class=\"hotel-content\">\n                <h3 id=\"hotel-name-" ++
  escapeHtml h.id ++
  "\" class=\"hotel-name\">" ++
  escapeHtml h.name ++
  "</h3>\n                <p class=\"hotel-location\">\n                    <span aria-label=\"Ubicación\">📍</span>\n                    " ++
  escapeHtml h.location ++
  "\n                </p>\n                <p class=\"hotel-description\">" ++
  escapeHtml h.description ++
  "</p>\n                <div class=\"hotel-amenities\" role=\"list\" aria-label=\"Amenidades del hotel\">\n                    " ++
  amenityTags h ++
  "\n                    " ++
  amenityOverflow h ++
  "\n                </div>\n                " ++
  attractionsBlock h ++
  "\n                <div class=\"hotel-footer\">\n                    <div class=\"hotel-price\">\n                        $" ++
  toLocaleStr h.nightlyRate ++
  "\n                        <span class=\"hotel-price-label\">por noche</span>\n                    </div>\n                    <div class=\"hotel-rooms\" aria-label=\"Número de habitaciones\">\n                        " ++
  toString h.rooms ++
  " habitaciones\n                    </div>\n                </div>\n            </div>\n        "

/-- `needle` occurs contiguously inside `hay`. -/
def StrIn (needle hay : String) : Prop :=
  needle.data <:+: hay.data

/-- Skip a leading segment of the haystack. -/
theorem strIn_skip {l t : List Char} (s : List Char) (h : l <:+: t) : l <:+: s ++ t := by
  obtain ⟨u, v, huv⟩ := h
  exact ⟨s ++ u, v, by rw [← huv]; simp⟩

/-- A list is an infix of itself followed by anything. -/
theorem strIn_here (l v : List Char) : l <:+: l ++ v :=
  ⟨[], v, by simp⟩

/-- A three-piece needle heads a right-associated haystack. -/
theorem strIn_here3 (a b c v : List Char) : a ++ (b ++ c) <:+: a ++ (b ++ (c ++ v)) :=
  ⟨[], v, by simp⟩

/-- Extend the haystack on the right. -/
theorem strIn_take {l t : List Char} (v : List Char) (h : l <:+: t) : l <:+: t ++ v := by
  obtain ⟨u, w, huv⟩ := h
  exact ⟨u, w ++ v, by rw [← huv]; simp⟩

/-- A member of a concatenated list of strings is an infix of the
concatenation. -/
theorem strConcat_mem_infix {l : List String} {x : String} (hx : x ∈ l) :
    x.data <:+: (strConcat l).data := by
  induction l with
  | nil => cases hx
  | cons y ys ih =>
    rw [show strConcat (y :: ys) = y ++ strConcat ys from rfl]
    simp only [String.data_append]
    rcases List.mem_cons.mp hx with rfl | hx2
    · exact strIn_here _ _
    · exact strIn_skip _ (ih hx2)

/-- C6 counterexample: the card template does not pass the image URL (nor
the id, nor the alt text) through `escapeHtml`; on a record whose image
field contains markup metacharacters the generated markup differs from the
all-escaped template the claim describes. -/
theorem cardHtml_not_all_escaped :
    cardHtml { rateHotel 100 with image := "<z>" }
      ≠ cardHtmlAllEsc { rateHotel 100 with image := "<z>" } := by
  decide

/-- C6 (amended): in the generated card markup, name, location,
description, each displayed amenity tag and each nearby attraction are
passed through `escapeHtml` before interpolation; but the image URL, the
record id, and the image alt text (name and location again) are
interpolated raw, without the escaping function. -/
theorem cardHtml_escaping (h : Hotel) :
    StrIn (escapeHtml h.name) (cardHtml h) ∧
    StrIn (escapeHtml h.location) (cardHtml h) ∧
    StrIn (escapeHtml h.description) (cardHtml h) ∧
    (∀ a ∈ h.amenities.take 5, StrIn (escapeHtml (formatAmenityName a)) (cardHtml h)) ∧
    (∀ attrs, h.nearbyAttractions = some attrs →
        ∀ attr ∈ attrs, StrIn (escapeHtml attr) (cardHtml h)) ∧
    StrIn h.image (cardHtml h) ∧
    StrIn h.id (cardHtml h) ∧
    StrIn (h.name ++ " - " ++ h.location) (cardHtml h) := by
  refine ⟨?_, ?_, ?_, ?_, ?_, ?_, ?_, ?_⟩
  · unfold StrIn cardHtml
    simp only [String.data_append, List.append_assoc]
    iterate 15 apply strIn_skip
    exact strIn_here _ _
  · unfold StrIn cardHtml
    simp only [String.data_append, List.append_assoc]
    iterate 17 apply strIn_skip
    exact strIn_here _ _
  · unfold StrIn cardHtml
    simp only [String.data_append, List.append_assoc]
    iterate 19 apply strIn_skip
    exact strIn_here _ _
  · intro a ha
    have helem : (escapeHtml (formatAmenityName a)).data <:+: (amenityTags h).data := by
      have hmem : ("<span class=\"amenity-tag\" role=\"listitem\">" ++ escapeHtml (formatAmenityName a) ++ "</span>")
          ∈ (h.amenities.take 5).map (fun amenity =>
              "<span class=\"amenity-tag\" role=\"listitem\">" ++ escapeHtml (formatAmenityName amenity) ++ "</span>") :=
        List.mem_map_of_mem _ ha
      have hin := strConcat_mem_infix hmem
      refine List.IsInfix.trans ?_ hin
      simp only [String.data_append, List.append_assoc]
      apply strIn_skip
      exact strIn_here _ _
    unfold StrIn cardHtml
    simp only [String.data_append, List.append_assoc]
    iterate 21 apply strIn_skip
    exact List.IsInfix.trans helem (strIn_here _ _)
  · intro attrs hattrs attr hattr
    have hblock : (escapeHtml attr).data <:+: (attractionsBlock h).data := by
      have hmem : ("<li>" ++ escapeHtml attr ++ "</li>")
          ∈ attrs.map (fun attr2 => "<li>" ++ escapeHtml attr2 ++ "</li>") :=
        List.mem_map_of_mem _ hattr
      have hin := strConcat_mem_infix hmem
      have hli : (escapeHtml attr).data <:+: ("<li>" ++ escapeHtml attr ++ "</li>").data := by
        simp only [String.data_append, List.append_assoc]
        apply strIn_skip
        exact strIn_here _ _
      have hjoin := List.IsInfix.trans hli hin
      unfold attractionsBlock
      rw [hattrs]
      simp only [String.data_append, List.append_assoc]
      apply strIn_skip
      exact List.IsInfix.trans hjoin (strIn_here _ _)
    unfold StrIn cardHtml
    simp only [String.data_append, List.append_assoc]
    iterate 25 apply strIn_skip
    exact List.IsInfix.trans hblock (strIn_here _ _)
  · unfold StrIn cardHtml
    simp only [String.data_append, List.append_assoc]
    apply strIn_skip
    exact strIn_here _ _
  · unfold StrIn cardHtml
    simp only [String.data_append, List.append_assoc]
    iterate 13 apply strIn_skip
    exact strIn_here _ _
  · unfold StrIn cardHtml
    simp only [String.data_append, List.append_assoc]
    iterate 3 apply strIn_skip
    exact strIn_here3 _ _ _ _

/-- A record exercising one amenity tag and one nearby attraction. -/
def tagHotel : Hotel :=
  { rateHotel 150 with amenities := ["spa"], nearbyAttractions := some ["Valle del Elqui"] }

/-- Witness for `cardHtml_escaping`: the escaped amenity tag and the
escaped attraction of a concrete record occur in its generated markup. -/
theorem cardHtml_escaping_witness :
    StrIn (escapeHtml (formatAmenityName "spa")) (cardHtml tagHotel) ∧
    StrIn (escapeHtml "Valle del Elqui") (cardHtml tagHotel) :=
  ⟨(cardHtml_escaping tagHotel).2.2.2.1 "spa" (by decide),
   (cardHtml_escaping tagHotel).2.2.2.2.1 ["Valle del Elqui"] rfl "Valle del Elqui" (by decide)⟩

end BoutiqueChile
